import Mathlib

/-!
Verification of the sevenate DX7 voice codec (Rust) against its
specification.  The Rust sources are shallowly embedded: byte buffers
become `List Nat` (each entry a `u8` value), `i32` payloads become `Int`,
fallible/panicking paths become an explicit outcome type.  Machine
arithmetic is modelled with explicit `% 256` / `% 2^32` where the Rust
code can wrap.
-/

namespace Sevenate

/-- `bit` crate: `x.bit_range(a..b)` — the bits `a..b-1` of `x`,
right-aligned. -/
def bitRange (x a b : Nat) : Nat := (x >>> a) % 2 ^ (b - a)

/-- `bit` crate: `x.bit(i)`. -/
def bitAt (x i : Nat) : Bool := x.testBit i

/-- `bit` crate: `x.set_bit_range(a..b, v)` — replace bits `a..b-1` of `x`
by the low bits of `v` (the crate asserts that `v` fits in the range). -/
def setBitRange (x a b v : Nat) : Nat :=
  x % 2 ^ a + v % 2 ^ (b - a) * 2 ^ a + x / 2 ^ b * 2 ^ b

/-- Rust `u8` left shift `x << k` (wraps modulo 256). -/
def shl8 (x k : Nat) : Nat := (x <<< k) % 256

/-- `src/dx7/operator.rs`, `Operator::pack`: 21 unpacked operator bytes to
17 packed bytes. -/
def Operator.pack (d : List Nat) : List Nat :=
  d.take 8 ++
  [d.getD 8 0, d.getD 9 0, d.getD 10 0,
   d.getD 11 0 ||| shl8 (d.getD 12 0) 2,
   d.getD 13 0 ||| shl8 (d.getD 20 0) 3,
   d.getD 14 0 ||| shl8 (d.getD 15 0) 2,
   d.getD 16 0,
   d.getD 17 0 ||| shl8 (d.getD 18 0) 1,
   d.getD 19 0]

/-- `src/dx7/operator.rs`, `Operator::unpack`: 17 packed operator bytes to
21 unpacked bytes. -/
def Operator.unpack (d : List Nat) : List Nat :=
  d.take 8 ++
  [d.getD 8 0, d.getD 9 0, d.getD 10 0,
   bitRange (d.getD 11 0) 0 2,
   bitRange (d.getD 11 0) 2 4,
   bitRange (d.getD 12 0) 0 3,
   bitRange (d.getD 13 0) 0 2,
   bitRange (d.getD 13 0) 2 5,
   d.getD 14 0,
   if bitAt (d.getD 15 0) 0 then 1 else 0,
   bitRange (d.getD 15 0) 1 6,
   d.getD 16 0,
   bitRange (d.getD 12 0) 3 7]

/- Bit-field round-trip facts for each shared packed byte, each checked by
exhaustive evaluation over the documented field ranges. -/

theorem pair2_lo : ∀ l < 4, ∀ r < 4, bitRange (l ||| shl8 r 2) 0 2 = l := by decide

theorem pair2_hi : ∀ l < 4, ∀ r < 4, bitRange (l ||| shl8 r 2) 2 4 = r := by decide

theorem rsdet_lo : ∀ s < 8, ∀ t < 15, bitRange (s ||| shl8 t 3) 0 3 = s := by decide

theorem rsdet_hi : ∀ s < 8, ∀ t < 15, bitRange (s ||| shl8 t 3) 3 7 = t := by decide

theorem amskvs_lo : ∀ a < 4, ∀ k < 8, bitRange (a ||| shl8 k 2) 0 2 = a := by decide

theorem amskvs_hi : ∀ a < 4, ∀ k < 8, bitRange (a ||| shl8 k 2) 2 5 = k := by decide

theorem modecoarse_bit : ∀ m < 2, ∀ c < 32,
    (if bitAt (m ||| shl8 c 1) 0 then 1 else 0) = m := by decide

theorem modecoarse_hi : ∀ m < 2, ∀ c < 32, bitRange (m ||| shl8 c 1) 1 6 = c := by decide

/-- C2: for every valid 21-byte unpacked operator buffer (curves 0..3,
rate scaling 0..7, amp-mod-sens 0..3, key-vel-sens 0..7, mode 0..1,
coarse 0..31, detune wire byte 0..14), `Operator::unpack (Operator::pack u) = u`,
and for the packed buffer `p = Operator::pack u` also
`Operator::pack (Operator::unpack p) = p`. -/
theorem operator_pack_unpack_roundtrip
    (b0 b1 b2 b3 b4 b5 b6 b7 b8 b9 b10 b11 b12 b13 b14 b15 b16 b17 b18 b19 b20 : Nat)
    (h11 : b11 < 4) (h12 : b12 < 4) (h13 : b13 < 8) (h14 : b14 < 4) (h15 : b15 < 8)
    (h17 : b17 < 2) (h18 : b18 < 32) (h20 : b20 < 15) :
    Operator.unpack (Operator.pack
      [b0, b1, b2, b3, b4, b5, b6, b7, b8, b9, b10,
       b11, b12, b13, b14, b15, b16, b17, b18, b19, b20]) =
      [b0, b1, b2, b3, b4, b5, b6, b7, b8, b9, b10,
       b11, b12, b13, b14, b15, b16, b17, b18, b19, b20] ∧
    Operator.pack (Operator.unpack (Operator.pack
      [b0, b1, b2, b3, b4, b5, b6, b7, b8, b9, b10,
       b11, b12, b13, b14, b15, b16, b17, b18, b19, b20])) =
      Operator.pack
      [b0, b1, b2, b3, b4, b5, b6, b7, b8, b9, b10,
       b11, b12, b13, b14, b15, b16, b17, b18, b19, b20] := by
  have key : Operator.unpack (Operator.pack
      [b0, b1, b2, b3, b4, b5, b6, b7, b8, b9, b10,
       b11, b12, b13, b14, b15, b16, b17, b18, b19, b20]) =
      [b0, b1, b2, b3, b4, b5, b6, b7, b8, b9, b10,
       bitRange (b11 ||| shl8 b12 2) 0 2,
       bitRange (b11 ||| shl8 b12 2) 2 4,
       bitRange (b13 ||| shl8 b20 3) 0 3,
       bitRange (b14 ||| shl8 b15 2) 0 2,
       bitRange (b14 ||| shl8 b15 2) 2 5,
       b16,
       if bitAt (b17 ||| shl8 b18 1) 0 then 1 else 0,
       bitRange (b17 ||| shl8 b18 1) 1 6,
       b19,
       bitRange (b13 ||| shl8 b20 3) 3 7] := rfl
  have hfirst : Operator.unpack (Operator.pack
      [b0, b1, b2, b3, b4, b5, b6, b7, b8, b9, b10,
       b11, b12, b13, b14, b15, b16, b17, b18, b19, b20]) =
      [b0, b1, b2, b3, b4, b5, b6, b7, b8, b9, b10,
       b11, b12, b13, b14, b15, b16, b17, b18, b19, b20] := by
    rw [key, pair2_lo b11 h11 b12 h12, pair2_hi b11 h11 b12 h12,
        rsdet_lo b13 h13 b20 h20, rsdet_hi b13 h13 b20 h20,
        amskvs_lo b14 h14 b15 h15, amskvs_hi b14 h14 b15 h15,
        modecoarse_bit b17 h17 b18 h18, modecoarse_hi b17 h17 b18 h18]
  exact ⟨hfirst, by rw [hfirst]⟩

/-- Witness for C2 at the BRASS 1 OP6 bytes. -/
theorem operator_pack_unpack_roundtrip_witness :
    Operator.unpack (Operator.pack
      [49, 99, 28, 68, 98, 98, 91, 0, 39, 54, 50, 1, 1, 4, 0, 2, 82, 0, 1, 0, 7]) =
      [49, 99, 28, 68, 98, 98, 91, 0, 39, 54, 50, 1, 1, 4, 0, 2, 82, 0, 1, 0, 7] ∧
    Operator.pack (Operator.unpack (Operator.pack
      [49, 99, 28, 68, 98, 98, 91, 0, 39, 54, 50, 1, 1, 4, 0, 2, 82, 0, 1, 0, 7])) =
      Operator.pack
      [49, 99, 28, 68, 98, 98, 91, 0, 39, 54, 50, 1, 1, 4, 0, 2, 82, 0, 1, 0, 7] :=
  operator_pack_unpack_roundtrip 49 99 28 68 98 98 91 0 39 54 50 1 1 4 0 2 82 0 1 0 7
    (by decide) (by decide) (by decide) (by decide) (by decide)
    (by decide) (by decide) (by decide)

/-- `src/lib.rs` `ParseError`. -/
inductive ParseError where
  | invalidLength : Nat → Nat → ParseError
  | invalidChecksum : Nat → Nat → ParseError
  | invalidData : Nat → ParseError
  | unidentified : ParseError
deriving DecidableEq

/-- Outcome of a Rust call: a returned value, a returned `Err`, or a
`panic!`/`expect` abort. -/
inductive RResult (α : Type) where
  | ok : α → RResult α
  | err : ParseError → RResult α
  | panicked : RResult α
deriving DecidableEq

/-- `src/dx7/sysex.rs` `checksum`: `u32` wrapping byte-sum, low byte,
`!sum + 1` in `u32` (bitwise not is `2^32-1 - x`; `+1` wraps), masked to
7 bits. -/
def checksum (data : List (Fin 256)) : Nat :=
  let sum := data.foldl (fun a b => (a + b.val) % 4294967296) 0
  let c := sum &&& 0xff
  ((4294967295 - c + 1) % 4294967296) &&& 0x7f

/-- The checksum formula as the specification words it: `s` the wrapping
byte-sum of the data modulo 256, result `((!s) + 1) & 0x7f` with byte-level
two's-complement negation applied first and the 7-bit mask last. -/
def checksumSpec (data : List (Fin 256)) : Nat :=
  let s := (data.foldl (fun a b => a + b.val) 0) % 256
  ((255 - s + 1) % 256) &&& 0x7f

theorem foldWrap_mod (data : List (Fin 256)) : ∀ a₁ a₂ : Nat, a₁ % 256 = a₂ % 256 →
    (data.foldl (fun s b => (s + b.val) % 4294967296) a₁) % 256 =
    (data.foldl (fun s b => s + b.val) a₂) % 256 := by
  induction data with
  | nil => intro a₁ a₂ h; simpa using h
  | cons b l ih =>
    intro a₁ a₂ h
    simp only [List.foldl_cons]
    apply ih
    have hdvd : ((a₁ + b.val) % 4294967296) % 256 = (a₁ + b.val) % 256 :=
      Nat.mod_mod_of_dvd _ ⟨16777216, by norm_num⟩
    omega

theorem and_mask_255 (x : Nat) : x &&& 255 = x % 256 := by
  have h := Nat.and_pow_two_sub_one_eq_mod x 8
  norm_num at h
  exact h

theorem and_mask_127 (x : Nat) : x &&& 127 = x % 128 := by
  have h := Nat.and_pow_two_sub_one_eq_mod x 7
  norm_num at h
  exact h

/-- C5: for every byte sequence, `checksum` computes exactly the spec's
`((!s) + 1) & 0x7f` on the byte-sum `s` modulo 256 (negation first, 7-bit
mask last), and the result always has its high bit clear (is ≤ 0x7F),
including when the byte-sum is a multiple of 128. -/
theorem checksum_matches_spec (data : List (Fin 256)) :
    checksum data = checksumSpec data ∧ checksum data ≤ 0x7f := by
  have hm := foldWrap_mod data 0 0 rfl
  simp only [checksum, checksumSpec, and_mask_255, and_mask_127]
  omega

/-- `src/dx7/mod.rs` `impl Ranged for Detune` — `new` panics outside
-7..7. -/
def Detune.new (v : Int) : RResult Int :=
  if -7 ≤ v ∧ v ≤ 7 then .ok v else .panicked

/-- `src/dx7/mod.rs` `Detune::as_byte`: `(self.0 + 7) as u8`. -/
def Detune.asByte (v : Int) : Nat := ((v + 7) % 256).toNat

/-- `src/dx7/operator.rs` `Operator::from_bytes`, detune field:
`Detune::new(data[20] as i32 - 7)` (widen to i32, then subtract). -/
def Operator.detuneFromBytes (b : Nat) : RResult Int :=
  Detune.new ((b : Int) - 7)

/-- `src/dx7/mod.rs` `impl From<u8> for Detune`:
`Detune::new((item - 7) as i32)` — the subtraction happens in `u8`, so for
bytes 0..6 it wraps to 249..255 (and the release-mode wrapped value is then
rejected by `Detune::new`; a debug build aborts at the subtraction itself —
either way the conversion fails rather than producing `b - 7`). -/
def Detune.fromByte (b : Nat) : RResult Int :=
  Detune.new (((b + 256 - 7) % 256 : Nat) : Int)

/-- `src/dx7.rs` (superseded flat revision) `impl From<u8> for Detune`:
`Detune::new((item + 7) as i32)` — adds 7 instead of subtracting. -/
def Legacy.Detune.fromByte (b : Nat) : RResult Int :=
  Detune.new ((b : Int) + 7)

/-- C4 counterexample: decoding does not succeed for every wire byte 0..14
through the `From<u8>` conversions: the `dx7/mod.rs` one fails (panics) on
wire byte 3 (u8 underflow, then out-of-range), and the `dx7.rs` one fails
on wire byte 8 (it adds 7 instead of subtracting). -/
theorem detune_from_u8_fails :
    Detune.fromByte 3 = .panicked ∧ Legacy.Detune.fromByte 8 = .panicked := by decide

/-- C4 (amended): the wire transform is `byte = value + 7`, and the decode
actually used when parsing an operator (`Operator::from_bytes`: widen the
byte to `i32`, then subtract 7) is its exact inverse on -7..7 and succeeds
for every wire byte 0..14, yielding `b - 7`. -/
theorem detune_wire_roundtrip (d : Int) (h1 : -7 ≤ d) (h2 : d ≤ 7) :
    Operator.detuneFromBytes (Detune.asByte d) = .ok d ∧
    (∀ b : Nat, b ≤ 14 → Operator.detuneFromBytes b = .ok ((b : Int) - 7)) := by
  constructor
  · unfold Operator.detuneFromBytes Detune.asByte Detune.new
    have hv : ((((d + 7) % 256).toNat : Int) - 7) = d := by
      rw [Int.emod_eq_of_lt (by omega) (by omega), Int.toNat_of_nonneg (by omega)]
      omega
    rw [hv, if_pos ⟨h1, h2⟩]
  · intro b hb
    unfold Operator.detuneFromBytes Detune.new
    rw [if_pos (by omega)]

/-- Witness for C4's amended theorem at detune -4 and wire byte 0. -/
theorem detune_wire_roundtrip_witness :
    Operator.detuneFromBytes (Detune.asByte (-4)) = .ok (-4) ∧
    Operator.detuneFromBytes 0 = .ok ((0 : Int) - 7) :=
  ⟨(detune_wire_roundtrip (-4) (by decide) (by decide)).1,
   (detune_wire_roundtrip 0 (by decide) (by decide)).2 0 (by decide)⟩

/-- `src/dx7/mod.rs` `impl Ranged for Depth` (MIN 0, MAX 7): `new` panics
outside the range. -/
def Depth.new (v : Int) : RResult Int :=
  if 0 ≤ v ∧ v ≤ 7 then .ok v else .panicked

/-- `src/dx7.rs` (superseded flat revision) `impl Ranged for Depth`: the
doc comment documents the range as 0...7, but `first()`/`last()` return
-7 and 7. -/
def Legacy.Depth.new (v : Int) : RResult Int :=
  if -7 ≤ v ∧ v ≤ 7 then .ok v else .panicked

/-- C6: `Depth::new` in `dx7/mod.rs` accepts both documented boundaries 0
and 7 and rejects -1 and 8; but the `dx7.rs` revision of `Depth`, whose doc
comment also documents 0..7, accepts -1 (its coded bounds are -7..7),
contradicting its own documentation. -/
theorem depth_new_range_check :
    Depth.new 0 = .ok 0 ∧ Depth.new 7 = .ok 7 ∧
    Depth.new (-1) = .panicked ∧ Depth.new 8 = .panicked ∧
    Legacy.Depth.new (-1) = .ok (-1) := by decide

/-- Rust `as u8` applied to an `i32` field value: the low 8 bits. -/
def toByte (v : Int) : Nat := (v % 256).toNat

/-- `src/dx7/sysex.rs` `Format`. -/
inductive Format where
  | voice : Format
  | cartridge : Format
deriving DecidableEq

/-- `src/dx7/sysex.rs` `impl TryFrom<u8> for Format`. -/
def Format.tryFrom (v : Nat) : Option Format :=
  match v with
  | 0 => some .voice
  | 9 => some .cartridge
  | _ => none

structure Header where
  subStatus : Nat
  channel : Int
  format : Format
  byteCount : Nat
deriving DecidableEq

/-- `src/dx7/sysex.rs` `Header::parse`: a failed MIDI-channel range check
returns `InvalidData(1)`; an unrecognized format byte hits
`.expect("format should be valid")`, i.e. panics. -/
def Header.parse (d : List Nat) : RResult Header :=
  let channel : Int := ((d.getD 0 0 &&& 15 : Nat) : Int) + 1
  if ¬(1 ≤ channel ∧ channel ≤ 16) then .err (.invalidData 1)
  else
    match Format.tryFrom (d.getD 1 0) with
    | none => .panicked
    | some format =>
      .ok { subStatus := (d.getD 0 0 >>> 4) &&& 7,
            channel := channel,
            format := format,
            byteCount := match format with
              | .voice => 155
              | .cartridge => 4096 }

theorem format_tryFrom_eq_none (b : Nat) (h0 : b ≠ 0) (h9 : b ≠ 9) :
    Format.tryFrom b = none := by
  match b with
  | 0 => exact absurd rfl h0
  | 9 => exact absurd rfl h9
  | 1 | 2 | 3 | 4 | 5 | 6 | 7 | 8 => rfl
  | n + 10 => rfl

/-- C7 counterexample: parsing a header whose format byte is 5 panics
(`expect`), and constructing the ranged value `Depth` from the
out-of-range value 8 panics — neither failure is returned as a typed
`ParseError`. -/
theorem parse_failures_panic :
    Header.parse [0, 5, 0, 0] = .panicked ∧ Depth.new 8 = .panicked := by decide

/-- C7 (amended): out-of-range ranged-value construction panics rather
than returning a typed error, and `Header::parse` panics on every
unrecognized format byte instead of returning `InvalidData`. -/
theorem ranged_and_header_failures_panic (v : Int) (hv : v < 0 ∨ 7 < v)
    (b0 b1 : Nat) (hb0 : b1 ≠ 0) (hb9 : b1 ≠ 9) :
    Depth.new v = .panicked ∧ Header.parse [b0, b1, 0, 0] = .panicked := by
  constructor
  · unfold Depth.new
    rw [if_neg (by omega)]
  · have hch : b0 &&& 15 ≤ 15 := Nat.and_le_right
    have hf : Format.tryFrom b1 = none := format_tryFrom_eq_none b1 hb0 hb9
    simp only [Header.parse, List.getD_cons_zero, List.getD_cons_succ]
    rw [if_neg (by push_neg; exact ⟨by omega, by omega⟩), hf]

/-- Witness for C7's amended theorem at value 8 and format byte 5. -/
theorem ranged_and_header_failures_panic_witness :
    Depth.new 8 = .panicked ∧ Header.parse [0, 5, 0, 0] = .panicked :=
  ranged_and_header_failures_panic 8 (by decide) 0 5 (by decide) (by decide)

/-- `src/dx7/lfo.rs` `LfoWaveform`. -/
inductive LfoWaveform where
  | triangle : LfoWaveform
  | sawDown : LfoWaveform
  | sawUp : LfoWaveform
  | square : LfoWaveform
  | sine : LfoWaveform
  | sampleAndHold : LfoWaveform
deriving DecidableEq

/-- `LfoWaveform as u8` (`repr(u8)` discriminants 0..5). -/
def LfoWaveform.toByte : LfoWaveform → Nat
  | .triangle => 0
  | .sawDown => 1
  | .sawUp => 2
  | .square => 3
  | .sine => 4
  | .sampleAndHold => 5

/-- `src/dx7/lfo.rs` `Lfo` (pitch-mod-sensitivity lives on `Voice` in this
schema). -/
structure Lfo where
  speed : Int
  delay : Int
  pmd : Int
  amd : Int
  sync : Bool
  waveform : LfoWaveform
deriving DecidableEq

/-- `src/dx7/lfo.rs` `Lfo::from_bytes`: the four `Level::new` calls panic
above 99; sync is `data[4] == 1`; a waveform byte outside 0..5 degrades to
`Triangle` (with only a logged warning). -/
def Lfo.fromBytes (d : List Nat) : RResult Lfo :=
  if d.getD 0 0 ≤ 99 ∧ d.getD 1 0 ≤ 99 ∧ d.getD 2 0 ≤ 99 ∧ d.getD 3 0 ≤ 99 then
    .ok { speed := d.getD 0 0, delay := d.getD 1 0, pmd := d.getD 2 0, amd := d.getD 3 0,
          sync := if d.getD 4 0 = 1 then true else false,
          waveform := match d.getD 5 0 with
            | 0 => .triangle
            | 1 => .sawDown
            | 2 => .sawUp
            | 3 => .square
            | 4 => .sine
            | 5 => .sampleAndHold
            | _ => .triangle }
  else .panicked

/-- `src/dx7/lfo.rs` `Lfo::to_bytes` (6 bytes). -/
def Lfo.toBytes (l : Lfo) : List Nat :=
  [toByte l.speed, toByte l.delay, toByte l.pmd, toByte l.amd,
   if l.sync then 1 else 0, l.waveform.toByte]

/-- `src/dx7/lfo.rs` `const DATA_SIZE: usize = 7`. -/
def Lfo.DATA_SIZE : Nat := 7

/-- `src/dx7/lfo.rs` `Lfo::unpack`: 5 packed bytes to 6 unpacked bytes. -/
def Lfo.unpack (d : List Nat) : List Nat :=
  [d.getD 0 0, d.getD 1 0, d.getD 2 0, d.getD 3 0,
   if bitAt (d.getD 4 0) 0 then 1 else 0,
   bitRange (d.getD 4 0) 1 4]

/-- C8: whenever the speed/delay/pmd/amd bytes are in range and the
waveform byte exceeds 5, `Lfo::from_bytes` succeeds, decodes the other
fields normally, and yields the `Triangle` waveform — never an error. -/
theorem lfo_from_bytes_waveform_lenient
    (b0 b1 b2 b3 b4 b5 : Nat)
    (h0 : b0 ≤ 99) (h1 : b1 ≤ 99) (h2 : b2 ≤ 99) (h3 : b3 ≤ 99) (h5 : 5 < b5) :
    Lfo.fromBytes [b0, b1, b2, b3, b4, b5] =
      .ok { speed := b0, delay := b1, pmd := b2, amd := b3,
            sync := if b4 = 1 then true else false, waveform := .triangle } := by
  obtain ⟨k, rfl⟩ : ∃ k, b5 = k + 6 := ⟨b5 - 6, by omega⟩
  unfold Lfo.fromBytes
  rw [if_pos ⟨h0, h1, h2, h3⟩]
  rfl

/-- Witness for C8 at the buffer `[35, 0, 0, 0, 1, 6]`. -/
theorem lfo_from_bytes_waveform_lenient_witness :
    Lfo.fromBytes [35, 0, 0, 0, 1, 6] =
      .ok { speed := 35, delay := 0, pmd := 0, amd := 0,
            sync := if (1 : Nat) = 1 then true else false, waveform := .triangle } :=
  lfo_from_bytes_waveform_lenient 35 0 0 0 1 6
    (by decide) (by decide) (by decide) (by decide) (by decide)

/-- `src/dx7/envelope.rs` `Envelope` (four rates, four levels). -/
structure Envelope where
  rate1 : Int
  rate2 : Int
  rate3 : Int
  rate4 : Int
  level1 : Int
  level2 : Int
  level3 : Int
  level4 : Int
deriving DecidableEq

/-- `src/dx7/envelope.rs` `Envelope::to_bytes` (8 bytes). -/
def Envelope.toBytes (e : Envelope) : List Nat :=
  [toByte e.rate1, toByte e.rate2, toByte e.rate3, toByte e.rate4,
   toByte e.level1, toByte e.level2, toByte e.level3, toByte e.level4]

/-- `src/dx7/envelope.rs` `const DATA_SIZE: usize = 8`. -/
def Envelope.DATA_SIZE : Nat := 8

/-- C9: `Lfo::to_bytes` always returns 6 bytes while `Lfo::DATA_SIZE` is
7, so the claimed length contract fails for `Lfo`; `Envelope` does satisfy
it (8 bytes, `DATA_SIZE` 8). -/
theorem data_size_length_contract :
    (∀ l : Lfo, (Lfo.toBytes l).length = 6 ∧ Lfo.DATA_SIZE = 7 ∧
      (Lfo.toBytes l).length ≠ Lfo.DATA_SIZE) ∧
    (∀ e : Envelope, (Envelope.toBytes e).length = Envelope.DATA_SIZE) :=
  ⟨fun _ => ⟨rfl, rfl, (by decide : (6 : Nat) ≠ 7)⟩, fun _ => rfl⟩

/-- `src/dx7/operator.rs` `CurveStyle`. -/
inductive CurveStyle where
  | linear : CurveStyle
  | exponential : CurveStyle
deriving DecidableEq

/-- `src/dx7/operator.rs` `CurveSign`. -/
inductive CurveSign where
  | negative : CurveSign
  | positive : CurveSign
deriving DecidableEq

/-- `src/dx7/operator.rs` `ScalingCurve`. -/
structure ScalingCurve where
  style : CurveStyle
  sign : CurveSign
deriving DecidableEq

/-- `src/dx7/operator.rs` `ScalingCurve::as_byte`. -/
def ScalingCurve.asByte (c : ScalingCurve) : Nat :=
  match c with
  | ⟨.linear, .positive⟩ => 3
  | ⟨.linear, .negative⟩ => 0
  | ⟨.exponential, .positive⟩ => 2
  | ⟨.exponential, .negative⟩ => 1

/-- `src/dx7/operator.rs` `impl From<u8> for ScalingCurve` (panics outside
0..3). -/
def ScalingCurve.fromByte (b : Nat) : RResult ScalingCurve :=
  match b with
  | 0 => .ok ⟨.linear, .negative⟩
  | 1 => .ok ⟨.exponential, .negative⟩
  | 2 => .ok ⟨.exponential, .positive⟩
  | 3 => .ok ⟨.linear, .positive⟩
  | _ => .panicked

/-- `src/dx7.rs` (superseded flat revision) `KeyboardLevelScaling`. -/
structure Legacy.KeyboardLevelScaling where
  breakpoint : Int
  leftDepth : Int
  rightDepth : Int
  leftCurve : ScalingCurve
  rightCurve : ScalingCurve
deriving DecidableEq

/-- `src/dx7.rs` `Operator::to_packed_bytes`, byte 11: the two curve bytes
combined as `left_curve | (right_curve << 2)`. -/
def Legacy.curvePairByte (l r : ScalingCurve) : Nat :=
  l.asByte ||| shl8 r.asByte 2

/-- `src/dx7.rs` `KeyboardLevelScaling::from_packed_bytes`: decodes the
curve byte as two nibbles (`data[3] >> 4`, `data[3] & 0x0f`);
`Key::new`/`Level::new`/`ScalingCurve::from` panic out of range. -/
def Legacy.KeyboardLevelScaling.fromPackedBytes (d : List Nat) :
    RResult Legacy.KeyboardLevelScaling :=
  if d.getD 0 0 ≤ 99 ∧ d.getD 1 0 ≤ 99 ∧ d.getD 2 0 ≤ 99 then
    match ScalingCurve.fromByte (d.getD 3 0 >>> 4),
          ScalingCurve.fromByte (d.getD 3 0 &&& 15) with
    | .ok lc, .ok rc =>
      .ok ⟨(d.getD 0 0 : Int), (d.getD 1 0 : Int), (d.getD 2 0 : Int), lc, rc⟩
    | _, _ => .panicked
  else .panicked

/-- C3: in `Operator::pack`/`Operator::unpack` the curve byte is
`left | (right << 2)` and unpacking recovers the left curve from bits 0-1
and the right curve from bits 2-3, for all 16 combinations; but the
superseded `dx7.rs` `KeyboardLevelScaling::from_packed_bytes` decodes that
byte as two 4-bit nibbles and fails (panics) on the pair byte its own
`to_packed_bytes` produces for exp-neg/exp-neg curves. -/
theorem curve_pair_two_bit_encoding :
    (∀ lc rc : Fin 4,
      (Operator.pack
        [49, 99, 28, 68, 98, 98, 91, 0, 39, 54, 50,
         lc.val, rc.val, 4, 0, 2, 82, 0, 1, 0, 7]).getD 11 0 =
        (lc.val ||| shl8 rc.val 2) ∧
      (Operator.unpack (Operator.pack
        [49, 99, 28, 68, 98, 98, 91, 0, 39, 54, 50,
         lc.val, rc.val, 4, 0, 2, 82, 0, 1, 0, 7])).getD 11 0 = lc.val ∧
      (Operator.unpack (Operator.pack
        [49, 99, 28, 68, 98, 98, 91, 0, 39, 54, 50,
         lc.val, rc.val, 4, 0, 2, 82, 0, 1, 0, 7])).getD 12 0 = rc.val) ∧
    Legacy.KeyboardLevelScaling.fromPackedBytes
      [39, 0, 0, Legacy.curvePairByte ⟨.exponential, .negative⟩ ⟨.exponential, .negative⟩] =
      .panicked := by
  constructor
  · decide
  · decide

/-- `src/dx7/operator.rs` `Scaling`. -/
structure Scaling where
  depth : Int
  curve : ScalingCurve
deriving DecidableEq

/-- `src/dx7/operator.rs` `KeyboardLevelScaling` (unpacked form: each
curve has its own byte). -/
structure KeyboardLevelScaling where
  breakpoint : Int
  left : Scaling
  right : Scaling
deriving DecidableEq

/-- `src/dx7/operator.rs` `KeyboardLevelScaling::to_bytes` (5 bytes). -/
def KeyboardLevelScaling.toBytes (k : KeyboardLevelScaling) : List Nat :=
  [toByte k.breakpoint, toByte k.left.depth, toByte k.right.depth,
   k.left.curve.asByte, k.right.curve.asByte]

/-- `src/dx7/operator.rs` `OperatorMode`. -/
inductive OperatorMode where
  | ratio : OperatorMode
  | fixed : OperatorMode
deriving DecidableEq

/-- `OperatorMode as u8`. -/
def OperatorMode.toByte : OperatorMode → Nat
  | .ratio => 0
  | .fixed => 1

/-- `src/dx7/operator.rs` `Operator` (scalar payloads are the wrapped
`i32` values). -/
structure Operator where
  eg : Envelope
  kbdLevelScaling : KeyboardLevelScaling
  kbdRateScaling : Int
  ampModSens : Int
  keyVelSens : Int
  outputLevel : Int
  mode : OperatorMode
  coarse : Int
  fine : Int
  detune : Int
deriving DecidableEq

/-- `src/dx7/operator.rs` `Operator::to_bytes` (21 bytes). -/
def Operator.toBytes (op : Operator) : List Nat :=
  op.eg.toBytes ++ op.kbdLevelScaling.toBytes ++
  [toByte op.kbdRateScaling, toByte op.ampModSens, toByte op.keyVelSens,
   toByte op.outputLevel, op.mode.toByte, toByte op.coarse, toByte op.fine,
   Detune.asByte op.detune]

/-- `src/dx7/voice.rs` `Voice` (operators OP1..OP6; `pitch_mod_sens` is a
voice-level field in this schema; the name is the stored `VoiceName`
string). -/
structure Voice where
  op1 : Operator
  op2 : Operator
  op3 : Operator
  op4 : Operator
  op5 : Operator
  op6 : Operator
  peg : Envelope
  alg : Int
  feedback : Int
  oscSync : Bool
  lfo : Lfo
  pitchModSens : Int
  transpose : Int
  name : String
deriving DecidableEq

/-- ASCII model of Rust `str::to_uppercase`, used by `VoiceName::value()`
(voice names are ASCII). -/
def rustToUppercase (s : String) : String :=
  ⟨s.data.map (fun c => if 'a' ≤ c ∧ c ≤ 'z' then Char.ofNat (c.toNat - 32) else c)⟩

/-- `format!("{:<10}", name)`: left-justified, space-padded to a minimum
width of 10 characters. -/
def padName (s : String) : String :=
  ⟨s.data ++ List.replicate (10 - s.data.length) ' '⟩

/-- The name bytes emitted by `Voice::to_bytes`: `self.name.value()`
(uppercased), space-padded, UTF-8 encoded (ASCII: one byte per char). -/
def nameFieldBytes (s : String) : List Nat :=
  (padName (rustToUppercase s)).data.map Char.toNat

/-- `src/dx7/mod.rs` `Algorithm::as_byte`: `(self.0 - 1) as u8`. -/
def Algorithm.asByte (v : Int) : Nat := toByte (v - 1)

/-- `src/dx7/mod.rs` `Transpose::as_byte`: `(self.0 + 24) as u8`. -/
def Transpose.asByte (v : Int) : Nat := toByte (v + 24)

/-- `src/dx7/voice.rs` `Voice::to_bytes` up to (not including) the name
bytes: operators in reverse order OP6..OP1, pitch EG, algorithm byte,
feedback, osc sync, LFO bytes, pitch-mod-sens, transpose. -/
def Voice.toBytesCore (v : Voice) : List Nat :=
  v.op6.toBytes ++ v.op5.toBytes ++ v.op4.toBytes ++ v.op3.toBytes ++
  v.op2.toBytes ++ v.op1.toBytes ++ v.peg.toBytes ++
  [Algorithm.asByte v.alg, toByte v.feedback, if v.oscSync then 1 else 0] ++
  v.lfo.toBytes ++
  [toByte v.pitchModSens, Transpose.asByte v.transpose]

/-- `src/dx7/voice.rs` `Voice::to_bytes` (155 bytes). -/
def Voice.toBytes (v : Voice) : List Nat :=
  v.toBytesCore ++ nameFieldBytes v.name

/-- `src/dx7/voice.rs` `Voice::pack`: 155 unpacked voice bytes to 128
packed bytes.  Byte 116 packs LFO sync (bit 0), LFO waveform (bits 1-3)
and pitch-mod-sens (bits 4-6, via `set_bit_range(4..7, ..)`). -/
def Voice.pack (d : List Nat) : List Nat :=
  Operator.pack ((d.drop 0).take 21) ++ Operator.pack ((d.drop 21).take 21) ++
  Operator.pack ((d.drop 42).take 21) ++ Operator.pack ((d.drop 63).take 21) ++
  Operator.pack ((d.drop 84).take 21) ++ Operator.pack ((d.drop 105).take 21) ++
  (d.drop 126).take 8 ++
  [d.getD 134 0,
   d.getD 135 0 ||| shl8 (d.getD 136 0) 3] ++
  (d.drop 137).take 4 ++
  [setBitRange (setBitRange (d.getD 141 0) 1 4 (d.getD 142 0)) 4 7 (d.getD 143 0),
   d.getD 144 0] ++
  (d.drop 145).take 10

/-- `src/dx7/voice.rs` `Voice::unpack`: 128 packed voice bytes to 155
unpacked bytes.  Note that the pitch-mod-sens read is
`data[116].bit_range(4..6)` in the source — bits 4 and 5 only. -/
def Voice.unpack (d : List Nat) : List Nat :=
  Operator.unpack ((d.drop 0).take 17) ++ Operator.unpack ((d.drop 17).take 17) ++
  Operator.unpack ((d.drop 34).take 17) ++ Operator.unpack ((d.drop 51).take 17) ++
  Operator.unpack ((d.drop 68).take 17) ++ Operator.unpack ((d.drop 85).take 17) ++
  (d.drop 102).take 8 ++
  [d.getD 110 0,
   bitRange (d.getD 111 0) 0 3,
   if bitAt (d.getD 111 0) 3 then 1 else 0] ++
  Lfo.unpack ((d.drop 112).take 5) ++
  [bitRange (d.getD 116 0) 4 6,
   d.getD 117 0] ++
  (d.drop 118).take 10

/-- `src/dx7/operator.rs` `Operator::new` (DX7 voice defaults). -/
def Operator.initOp : Operator :=
  { eg := { rate1 := 99, rate2 := 99, rate3 := 99, rate4 := 99,
            level1 := 99, level2 := 99, level3 := 99, level4 := 0 },
    kbdLevelScaling :=
      { breakpoint := 39,
        left := { depth := 0, curve := ⟨.linear, .negative⟩ },
        right := { depth := 0, curve := ⟨.linear, .negative⟩ } },
    kbdRateScaling := 0, ampModSens := 0, keyVelSens := 0,
    outputLevel := 0, mode := .ratio, coarse := 1, fine := 0, detune := 0 }

/-- `src/dx7/voice.rs` `Voice::new` (DX7 init voice; all operator output
levels 0). -/
def Voice.initVoice : Voice :=
  { op1 := Operator.initOp, op2 := Operator.initOp, op3 := Operator.initOp,
    op4 := Operator.initOp, op5 := Operator.initOp, op6 := Operator.initOp,
    peg := { rate1 := 99, rate2 := 99, rate3 := 99, rate4 := 99,
             level1 := 50, level2 := 50, level3 := 50, level4 := 50 },
    alg := 1, feedback := 0, oscSync := true,
    lfo := { speed := 35, delay := 0, pmd := 0, amd := 0,
             sync := true, waveform := .triangle },
    pitchModSens := 0, transpose := 0, name := "INIT VOICE" }

/-- The init voice with pitch-mod-sensitivity 4 (a valid `Depth` value). -/
def Voice.pmsBugVoice : Voice := { Voice.initVoice with pitchModSens := 4 }

set_option maxRecDepth 8000 in
/-- C1: the voice round-trip `unpack (pack (to_bytes v))` is NOT the
identity on `to_bytes v` for every valid voice: for the valid init voice
with pitch-mod-sensitivity 4, byte 143 (the pitch-mod-sens byte) comes
back as 0, because `Voice::unpack` reads only bits 4-5 of packed byte 116
(`bit_range(4..6)`) while `Voice::pack` wrote pitch-mod-sens into bits
4-6 (`set_bit_range(4..7, ..)`). -/
theorem voice_roundtrip_loses_pitch_mod_sens :
    (Voice.toBytes Voice.pmsBugVoice).getD 143 0 = 4 ∧
    (Voice.unpack (Voice.pack (Voice.toBytes Voice.pmsBugVoice))).getD 143 0 = 0 ∧
    Voice.unpack (Voice.pack (Voice.toBytes Voice.pmsBugVoice)) ≠
      Voice.toBytes Voice.pmsBugVoice := by
  refine ⟨?_, ?_, ?_⟩ <;> decide

/-- C10: bytes 145..155 of `Voice::to_bytes` are the stored name
uppercased and right-padded with spaces to 10 bytes; consequently two
voices differing only in the letter case of their names serialize to
identical buffers (a stored lowercase name is not reproduced verbatim). -/
theorem voice_name_serialized_uppercase (v : Voice) :
    (Voice.toBytes v).drop 145 = nameFieldBytes v.name ∧
    (v.name.data.length ≤ 10 → (nameFieldBytes v.name).length = 10) ∧
    (∀ n : String, rustToUppercase n = rustToUppercase v.name →
      Voice.toBytes { v with name := n } = Voice.toBytes v) := by
  refine ⟨rfl, ?_, ?_⟩
  · intro h
    show (List.map Char.toNat
      (v.name.data.map (fun c => if 'a' ≤ c ∧ c ≤ 'z' then Char.ofNat (c.toNat - 32) else c) ++
       List.replicate
        (10 - (v.name.data.map (fun c => if 'a' ≤ c ∧ c ≤ 'z' then Char.ofNat (c.toNat - 32) else c)).length)
        ' ')).length = 10
    simp only [List.length_map, List.length_append, List.length_replicate]
    omega
  · intro n h
    show Voice.toBytesCore v ++ nameFieldBytes n =
      Voice.toBytesCore v ++ nameFieldBytes v.name
    have hn : nameFieldBytes n = nameFieldBytes v.name := by
      unfold nameFieldBytes
      rw [h]
    rw [hn]

/-- Witness for C10 at the init voice and the lowercase name
"init voice". -/
theorem voice_name_serialized_uppercase_witness :
    (nameFieldBytes "INIT VOICE").length = 10 ∧
    Voice.toBytes { Voice.initVoice with name := "init voice" } =
      Voice.toBytes Voice.initVoice :=
  ⟨(voice_name_serialized_uppercase Voice.initVoice).2.1 (by decide),
   (voice_name_serialized_uppercase Voice.initVoice).2.2 "init voice" (by decide)⟩

end Sevenate
